import Mathlib

/-!
# Verification of `torchfilter.train.train_filter`

A shallow embedding of `src/torchfilter/train/_train_filter.py`.

Tensors are modelled as a shape (list of dimension sizes) together with an
element function from index lists to rationals.  The external collaborators
(the filter model, the `fannypack` training helper `buddy`, the Gaussian
sampler of `torch.distributions`) are abstract parameters collected in an
environment record; the observable calls the training loop makes into them
are recorded as an event trace.  Python exceptions (`AssertionError` from
`assert`, `ValueError` from tuple unpacking, `ZeroDivisionError` from `%`
and `/` by zero) are modelled with an error type; the trace produced up to
the raise is kept, matching the side effects already performed when a
Python exception propagates.
-/

namespace TorchFilter

/-- A torch tensor: a shape `(d₀, d₁, ...)` plus elements indexed by
index lists.  Elements are rationals (reals are irrelevant here: no claim
depends on floating-point rounding). -/
structure Tensor where
  shape : List Nat
  elem : List Nat → ℚ

/-- Swap the first two entries of a list (used for both the shape and the
index action of `torch.transpose(tensor, 0, 1)`). -/
def swapFirstTwo : List Nat → List Nat
  | a :: b :: rest => b :: a :: rest
  | l => l

/-- Python function `_swap_batch_sequence_axes(tensor)`, i.e.
`torch.transpose(tensor, 0, 1)`: converts data formatted as `(N, T, ...)` to `(T, N, ...)`. -/
def swap_batch_sequence_axes (t : Tensor) : Tensor where
  shape := swapFirstTwo t.shape
  elem := fun idx => t.elem (swapFirstTwo idx)

/-- Indexing `wrapper[0]`: index along the leading axis at 0. -/
def index0 (t : Tensor) : Tensor where
  shape := t.shape.tail
  elem := fun idx => t.elem (0 :: idx)

/-- Slicing `wrapper[1:]`: drop the first entry along the leading axis. -/
def slice1 (t : Tensor) : Tensor where
  shape :=
    match t.shape with
    | d :: rest => (d - 1) :: rest
    | [] => []
  elem := fun idx =>
    match idx with
    | i :: rest => t.elem ((i + 1) :: rest)
    | [] => t.elem []

/-- Expansion `initial_covariance[None, :, :].expand((N, state_dim, state_dim))`. -/
def expandCov (cov : Tensor) (N state_dim : Nat) : Tensor where
  shape := [N, state_dim, state_dim]
  elem := fun idx => cov.elem idx.tail

theorem swapFirstTwo_swapFirstTwo (l : List Nat) :
    swapFirstTwo (swapFirstTwo l) = l := by
  match l with
  | [] => rfl
  | [a] => rfl
  | a :: b :: rest => rfl

theorem swap_batch_sequence_axes_involutive (t : Tensor) :
    swap_batch_sequence_axes (swap_batch_sequence_axes t) = t := by
  cases t with
  | mk shape elem =>
    simp only [swap_batch_sequence_axes, swapFirstTwo_swapFirstTwo]

/-- The filter's belief after `initialize_beliefs` /
`virtual_sensor_initialize_beliefs`: what the external filter model was
told to start from. -/
inductive Belief where
  | fromVirtualSensor (observations : Tensor)
  | fromMeanCov (mean : Tensor) (covariance : Tensor)

/-- Python exceptions the function can raise: a failing `assert` (with its
message, or the asserted expression's text when it has none), the
`ValueError` of unpacking `states_labels.shape` into three names, the
`IndexError` of `torch.transpose(t, 0, 1)` on a tensor of rank below 2 or
of `t[0]` on an empty leading axis, and the `ZeroDivisionError` of `%` or
`/` by zero. -/
inductive PyError where
  | assertionError (msg : String)
  | valueError (msg : String)
  | indexError (msg : String)
  | zeroDivisionError
deriving Repr, DecidableEq

/-- Observable calls `train_filter` makes into its collaborators, in
program order. -/
inductive Event where
  | virtualSensorInitializeBeliefs (observations : Tensor)
  | initializeBeliefs (mean : Tensor) (covariance : Tensor)
  | forwardLoop (observations : Tensor) (controls : Tensor)
  | minimize (loss : ℚ) (optimizerName : String)
  | logScalar (scope : String) (name : String) (value : ℚ)
  | printEpochLoss (value : ℚ)

/-- The abstract filter model (`torchfilter.base.Filter`): its metadata and
its `forward_loop` as a black-box function of the belief it was initialized
with and the observation/control sequences it is given. -/
structure FilterModel where
  state_dim : Nat
  training : Bool
  isVirtualSensorEKF : Bool
  forward_loop : Belief → Tensor → Tensor → Tensor

/-- One minibatch yielded by the dataloader: a `TrajectoryTorch` of
batch-major `(N, T, ...)` tensors. -/
structure Batch where
  states : Tensor
  observations : Tensor
  controls : Tensor

/-- The arguments of `train_filter` together with the abstract behaviour of
its collaborators: the dataloader (dataset kind, `batch_size`, the batches
it yields), and the sampler standing for
`torch.distributions.MultivariateNormal(mean, cov).sample()`. -/
structure Env where
  filter_model : FilterModel
  datasetIsSubsequence : Bool
  batch_size : Nat
  batches : List Batch
  initial_covariance : Tensor
  loss_function : Tensor → Tensor → ℚ
  log_interval : Nat
  measurement_init : Bool
  optimizer_name : String
  sample : Tensor → Tensor → Tensor

/-- Unpacking `T, N, state_dim = states_labels.shape`: a
`ValueError` unless the tensor is 3-dimensional. -/
def unpack3 (shape : List Nat) : Except PyError (Nat × Nat × Nat) :=
  match shape with
  | [a, b, c] => Except.ok (a, b, c)
  | _ => Except.error (PyError.valueError "tuple unpacking of states_labels.shape")

/-- Checked form of `t[0]`: Python indexing raises `IndexError` on an
empty leading axis (and on a 0-dimensional tensor); otherwise it is
`index0`. -/
def index0Checked (t : Tensor) : Except PyError Tensor :=
  match t.shape with
  | [] => Except.error (PyError.indexError "invalid index of a 0-dim tensor")
  | 0 :: _ =>
    Except.error (PyError.indexError "index 0 is out of bounds for dimension 0 with size 0")
  | _ :: _ => Except.ok (index0 t)

/-- The `# Populate initial filter belief` block: either the virtual-sensor
branch (guarded by the `isinstance` assert) calling
`virtual_sensor_initialize_beliefs(observations=wrapper[0])`, or the
covariance branch calling
`initialize_beliefs(mean=initial_states, covariance=initial_states_covariance)`
with `initial_states` sampled from
`MultivariateNormal(states_labels[0], initial_states_covariance)`; the
`[0]` indexing raises `IndexError` when the (time) leading axis is empty. -/
def populateInitialBelief (env : Env) (states_labels observations : Tensor)
    (N state_dim : Nat) : List Event × Except PyError Belief :=
  if env.measurement_init then
    if env.filter_model.isVirtualSensorEKF then
      match index0Checked observations with
      | Except.error e => ([], Except.error e)
      | Except.ok obs0 =>
        ([Event.virtualSensorInitializeBeliefs obs0],
          Except.ok (Belief.fromVirtualSensor obs0))
    else
      ([], Except.error (PyError.assertionError "Only supported for virtual sensor EKFs!"))
  else
    let initial_states_covariance := expandCov env.initial_covariance N state_dim
    match index0Checked states_labels with
    | Except.error e => ([], Except.error e)
    | Except.ok sl0 =>
      let initial_states := env.sample sl0 initial_states_covariance
      ([Event.initializeBeliefs initial_states initial_states_covariance],
        Except.ok (Belief.fromMeanCov initial_states initial_states_covariance))

/-- The body of the `for batch_idx, batch_data in enumerate(tqdm(dataloader))`
loop: the events emitted up to completion or up to the raised exception,
and the batch's loss (the value added to `epoch_loss`) on success. -/
def processBatch (env : Env) (batch_idx : Nat) (batch_data : Batch) :
    List Event × Except PyError ℚ :=
  -- Swap batch size, sequence length axes; `torch.transpose(t, 0, 1)`
  -- raises IndexError on tensors of rank below 2, one tensor at a time
  if batch_data.states.shape.length < 2 then
    ([], Except.error (PyError.indexError
      "Dimension out of range (expected to be in range of [-1, 0], but got 1)"))
  else if batch_data.observations.shape.length < 2 then
    ([], Except.error (PyError.indexError
      "Dimension out of range (expected to be in range of [-1, 0], but got 1)"))
  else if batch_data.controls.shape.length < 2 then
    ([], Except.error (PyError.indexError
      "Dimension out of range (expected to be in range of [-1, 0], but got 1)"))
  else
  let states_labels := swap_batch_sequence_axes batch_data.states
  let observations := swap_batch_sequence_axes batch_data.observations
  let controls := swap_batch_sequence_axes batch_data.controls
  -- Shape checks
  match unpack3 states_labels.shape with
  | Except.error e => ([], Except.error e)
  | Except.ok (T, N, state_dim) =>
    if state_dim ≠ env.filter_model.state_dim then
      ([], Except.error (PyError.assertionError "state_dim == filter_model.state_dim"))
    else if observations.shape.take 2 ≠ [T, N] then
      ([], Except.error (PyError.assertionError "observations.shape[:2] == (T, N)"))
    else if controls.shape.take 2 ≠ [T, N] then
      ([], Except.error (PyError.assertionError "controls.shape[:2] == (T, N)"))
    else if batch_idx = 0 ∧ N ≠ env.batch_size then
      ([], Except.error (PyError.assertionError "batch_idx != 0 or N == dataloader.batch_size"))
    else
      match populateInitialBelief env states_labels observations N state_dim with
      | (initEvents, Except.error e) => (initEvents, Except.error e)
      | (initEvents, Except.ok belief) =>
        -- Forward pass from the first state
        let state_predictions :=
          env.filter_model.forward_loop belief (slice1 observations) (slice1 controls)
        let events := initEvents ++ [Event.forwardLoop (slice1 observations) (slice1 controls)]
        if state_predictions.shape ≠ [T - 1, N, state_dim] then
          (events, Except.error (PyError.assertionError "state_predictions.shape == (T - 1, N, state_dim)"))
        else
          -- Minimize loss
          let loss := env.loss_function state_predictions (slice1 states_labels)
          let events := events ++ [Event.minimize loss env.optimizer_name]
          -- Logging
          if env.log_interval = 0 then
            (events, Except.error PyError.zeroDivisionError)
          else if batch_idx % env.log_interval = 0 then
            (events ++ [Event.logScalar "train_filter_recurrent" "Training loss" loss],
              Except.ok loss)
          else
            (events, Except.ok loss)

/-- Run the loop from batch index `batch_idx` over the remaining batches,
returning the emitted events and, on success, the sum of per-batch losses
(the final `epoch_loss` before averaging). -/
def runBatches (env : Env) : Nat → List Batch → List Event × Except PyError ℚ
  | _, [] => ([], Except.ok 0)
  | batch_idx, b :: rest =>
    match processBatch env batch_idx b with
    | (evs, Except.error e) => (evs, Except.error e)
    | (evs, Except.ok loss) =>
      match runBatches env (batch_idx + 1) rest with
      | (evs', Except.error e) => (evs ++ evs', Except.error e)
      | (evs', Except.ok acc) => (evs ++ evs', Except.ok (loss + acc))

/-- Function `train_filter`: the top-level precondition assertions, one epoch over
the dataloader, then the average-loss print.  Returns the event trace with,
on success, the printed epoch loss. -/
def train_filter (env : Env) : List Event × Except PyError ℚ :=
  if ¬ env.datasetIsSubsequence then
    ([], Except.error (PyError.assertionError "isinstance(dataloader.dataset, torchfilter.data.SubsequenceDataset)"))
  else if env.initial_covariance.shape ≠ [env.filter_model.state_dim, env.filter_model.state_dim] then
    ([], Except.error (PyError.assertionError "initial_covariance.shape == (filter_model.state_dim, filter_model.state_dim)"))
  else if ¬ env.filter_model.training then
    ([], Except.error (PyError.assertionError "Model needs to be set to train mode"))
  else
    match runBatches env 0 env.batches with
    | (evs, Except.error e) => (evs, Except.error e)
    | (evs, Except.ok epoch_loss) =>
      if env.batches.length = 0 then
        (evs, Except.error PyError.zeroDivisionError)
      else
        let avg := epoch_loss / (env.batches.length : ℚ)
        (evs ++ [Event.printEpochLoss avg], Except.ok avg)

/-! ## Closed forms of the values the loop body computes -/

/-- The belief the filter is initialized with (closed form). -/
def beliefFor (env : Env) (states_labels observations : Tensor) (N : Nat) : Belief :=
  if env.measurement_init then
    Belief.fromVirtualSensor (index0 observations)
  else
    Belief.fromMeanCov
      (env.sample (index0 states_labels)
        (expandCov env.initial_covariance N env.filter_model.state_dim))
      (expandCov env.initial_covariance N env.filter_model.state_dim)

/-- The events emitted by the belief-initialization block (closed form). -/
def initEventsFor (env : Env) (states_labels observations : Tensor) (N : Nat) : List Event :=
  if env.measurement_init then
    [Event.virtualSensorInitializeBeliefs (index0 observations)]
  else
    [Event.initializeBeliefs
      (env.sample (index0 states_labels)
        (expandCov env.initial_covariance N env.filter_model.state_dim))
      (expandCov env.initial_covariance N env.filter_model.state_dim)]

/-- The `state_predictions` tensor of a batch (closed form). -/
def predictionsFor (env : Env) (b : Batch) (N : Nat) : Tensor :=
  env.filter_model.forward_loop
    (beliefFor env (swap_batch_sequence_axes b.states) (swap_batch_sequence_axes b.observations) N)
    (slice1 (swap_batch_sequence_axes b.observations))
    (slice1 (swap_batch_sequence_axes b.controls))

/-- The per-batch loss value (closed form). -/
def lossFor (env : Env) (b : Batch) (N : Nat) : ℚ :=
  env.loss_function (predictionsFor env b N) (slice1 (swap_batch_sequence_axes b.states))

/-! ## Characterization lemmas -/

theorem unpack3_eq_ok {l : List Nat} {a b c : Nat}
    (h : unpack3 l = Except.ok (a, b, c)) : l = [a, b, c] := by
  unfold unpack3 at h
  split at h
  · simp_all
  · simp at h

theorem swapFirstTwo_length (l : List Nat) : (swapFirstTwo l).length = l.length := by
  match l with
  | [] => rfl
  | [a] => rfl
  | a :: b :: rest => rfl

theorem swap_shape_length (t : Tensor) :
    (swap_batch_sequence_axes t).shape.length = t.shape.length := by
  rw [show (swap_batch_sequence_axes t).shape = swapFirstTwo t.shape from rfl,
    swapFirstTwo_length]

theorem take2_eq_cons {l : List Nat} {a b : Nat} (h : l.take 2 = [a, b]) :
    ∃ r, l = a :: b :: r := by
  match l with
  | [] => simp at h
  | [x] => simp at h
  | x :: y :: r =>
    simp only [List.take_succ_cons, List.take_zero, List.cons.injEq, and_true] at h
    exact ⟨r, by rw [h.1, h.2]⟩

theorem index0Checked_ok (t : Tensor) (h : t.shape.headD 0 ≠ 0) :
    index0Checked t = Except.ok (index0 t) := by
  unfold index0Checked
  rcases ht : t.shape with _ | ⟨d, r⟩
  · rw [ht] at h; simp at h
  · rcases d with _ | d
    · rw [ht] at h; simp at h
    · rfl

theorem index0Checked_zero (t : Tensor) (r : List Nat) (h : t.shape = 0 :: r) :
    index0Checked t = Except.error
      (PyError.indexError "index 0 is out of bounds for dimension 0 with size 0") := by
  unfold index0Checked
  rw [h]

theorem index0Checked_ok_inv {t u : Tensor} (h : index0Checked t = Except.ok u) :
    u = index0 t ∧ t.shape.headD 0 ≠ 0 := by
  unfold index0Checked at h
  split at h
  · simp at h
  · simp at h
  · rename_i head tail hside heq
    simp only [Except.ok.injEq] at h
    refine ⟨h.symm, ?_⟩
    rw [heq]
    simpa using hside

theorem populateInitialBelief_ok (env : Env) (sl obs : Tensor) (N : Nat)
    (hv : env.measurement_init = true → env.filter_model.isVirtualSensorEKF = true)
    (hsl : sl.shape.headD 0 ≠ 0) (hobs : obs.shape.headD 0 ≠ 0) :
    populateInitialBelief env sl obs N env.filter_model.state_dim =
      (initEventsFor env sl obs N, Except.ok (beliefFor env sl obs N)) := by
  unfold populateInitialBelief initEventsFor beliefFor
  by_cases hm : env.measurement_init
  · simp [hm, hv hm, index0Checked_ok obs hobs]
  · simp [hm, index0Checked_ok sl hsl]

/-- The belief-initialization block with an empty leading (time) axis on
the tensor it indexes raises `IndexError`, in either branch. -/
theorem populateInitialBelief_emptyT (env : Env) (sl obs : Tensor) (N d : Nat)
    (rsl robs : List Nat) (hsl : sl.shape = 0 :: rsl) (hobs : obs.shape = 0 :: robs)
    (hv : env.measurement_init = true → env.filter_model.isVirtualSensorEKF = true) :
    populateInitialBelief env sl obs N d =
      ([], Except.error (PyError.indexError
        "index 0 is out of bounds for dimension 0 with size 0")) := by
  unfold populateInitialBelief
  by_cases hm : env.measurement_init
  · rw [if_pos hm, if_pos (hv hm), index0Checked_zero obs robs hobs]
  · rw [if_neg hm]
    dsimp only
    rw [index0Checked_zero sl rsl hsl]

/-- Closed-form evaluation of the loop body when every checked condition
holds: all asserts pass, the belief is initialized, `forward_loop` runs,
`minimize` is called with the loss, and the value is logged exactly when
`batch_idx % log_interval == 0` (with `log_interval = 0` instead raising
`ZeroDivisionError` at the `%`, after the gradient step). -/
theorem processBatch_eq (env : Env) (batch_idx : Nat) (b : Batch) (T N : Nat)
    (hs : (swap_batch_sequence_axes b.states).shape = [T, N, env.filter_model.state_dim])
    (ho : (swap_batch_sequence_axes b.observations).shape.take 2 = [T, N])
    (hc : (swap_batch_sequence_axes b.controls).shape.take 2 = [T, N])
    (hb : batch_idx = 0 → N = env.batch_size)
    (hv : env.measurement_init = true → env.filter_model.isVirtualSensorEKF = true)
    (hT : T ≠ 0)
    (hp : (predictionsFor env b N).shape = [T - 1, N, env.filter_model.state_dim]) :
    processBatch env batch_idx b =
      (initEventsFor env (swap_batch_sequence_axes b.states)
          (swap_batch_sequence_axes b.observations) N ++
        [Event.forwardLoop (slice1 (swap_batch_sequence_axes b.observations))
            (slice1 (swap_batch_sequence_axes b.controls)),
          Event.minimize (lossFor env b N) env.optimizer_name] ++
        (if env.log_interval ≠ 0 ∧ batch_idx % env.log_interval = 0 then
          [Event.logScalar "train_filter_recurrent" "Training loss" (lossFor env b N)]
        else []),
        if env.log_interval = 0 then Except.error PyError.zeroDivisionError
        else Except.ok (lossFor env b N)) := by
  have hslen : b.states.shape.length = 3 := by
    have := congrArg List.length hs
    rw [swap_shape_length] at this
    simpa using this
  obtain ⟨ro, hoeq⟩ := take2_eq_cons ho
  obtain ⟨rc, hceq⟩ := take2_eq_cons hc
  have holen : 2 ≤ b.observations.shape.length := by
    rw [← swap_shape_length, hoeq]
    simp
  have hclen : 2 ≤ b.controls.shape.length := by
    rw [← swap_shape_length, hceq]
    simp
  have hsl0 : (swap_batch_sequence_axes b.states).shape.headD 0 ≠ 0 := by
    rw [hs]; simpa using hT
  have hobs0 : (swap_batch_sequence_axes b.observations).shape.headD 0 ≠ 0 := by
    rw [hoeq]; simpa using hT
  unfold processBatch
  rw [if_neg (by omega), if_neg (by omega), if_neg (by omega)]
  dsimp only
  rw [hs]
  simp only [unpack3]
  rw [if_neg (by simp), if_neg (by simp [ho]), if_neg (by simp [hc]),
    if_neg (by rintro ⟨h0, hN⟩; exact hN (hb h0))]
  rw [populateInitialBelief_ok env _ _ _ hv hsl0 hobs0]
  dsimp only
  rw [show env.filter_model.forward_loop
      (beliefFor env (swap_batch_sequence_axes b.states) (swap_batch_sequence_axes b.observations) N)
      (slice1 (swap_batch_sequence_axes b.observations))
      (slice1 (swap_batch_sequence_axes b.controls)) = predictionsFor env b N from rfl]
  rw [if_neg (by simp [hp])]
  rw [show env.loss_function (predictionsFor env b N) (slice1 (swap_batch_sequence_axes b.states)) =
    lossFor env b N from rfl]
  by_cases hL : env.log_interval = 0
  · simp [hL]
  · by_cases hmod : batch_idx % env.log_interval = 0
    · simp [hL, hmod]
    · simp [hL, hmod]

theorem populateInitialBelief_ok_inv (env : Env) (sl obs : Tensor) (N : Nat)
    {evs : List Event} {bel : Belief}
    (h : populateInitialBelief env sl obs N env.filter_model.state_dim = (evs, Except.ok bel)) :
    (env.measurement_init = true → env.filter_model.isVirtualSensorEKF = true) ∧
      evs = initEventsFor env sl obs N ∧ bel = beliefFor env sl obs N := by
  unfold populateInitialBelief at h
  unfold initEventsFor beliefFor
  by_cases hm : env.measurement_init
  · rw [if_pos hm] at h
    by_cases hk : env.filter_model.isVirtualSensorEKF
    · rw [if_pos hk] at h
      rcases hio : index0Checked obs with e | u
      · rw [hio] at h; simp at h
      · rw [hio] at h
        dsimp only at h
        simp only [Prod.mk.injEq, Except.ok.injEq] at h
        obtain ⟨hu, -⟩ := index0Checked_ok_inv hio
        subst hu
        exact ⟨fun _ => hk, by simp [hm, ← h.1], by simp [hm, ← h.2]⟩
    · rw [if_neg hk] at h; simp at h
  · rw [if_neg hm] at h
    dsimp only at h
    rcases hio : index0Checked sl with e | u
    · rw [hio] at h; simp at h
    · rw [hio] at h
      dsimp only at h
      simp only [Prod.mk.injEq, Except.ok.injEq] at h
      obtain ⟨hu, -⟩ := index0Checked_ok_inv hio
      subst hu
      exact ⟨fun c => absurd c hm, by simp [hm, ← h.1], by simp [hm, ← h.2]⟩

/-- Inversion: a successful pass of the loop body implies every checked
condition held and determines the trace and the loss. -/
theorem processBatch_ok_elim (env : Env) (batch_idx : Nat) (b : Batch)
    (evs : List Event) (loss : ℚ)
    (h : processBatch env batch_idx b = (evs, Except.ok loss)) :
    ∃ T N,
      (swap_batch_sequence_axes b.states).shape = [T, N, env.filter_model.state_dim] ∧
      (swap_batch_sequence_axes b.observations).shape.take 2 = [T, N] ∧
      (swap_batch_sequence_axes b.controls).shape.take 2 = [T, N] ∧
      (batch_idx = 0 → N = env.batch_size) ∧
      (env.measurement_init = true → env.filter_model.isVirtualSensorEKF = true) ∧
      (predictionsFor env b N).shape = [T - 1, N, env.filter_model.state_dim] ∧
      env.log_interval ≠ 0 ∧
      loss = lossFor env b N ∧
      evs =
        initEventsFor env (swap_batch_sequence_axes b.states)
            (swap_batch_sequence_axes b.observations) N ++
          [Event.forwardLoop (slice1 (swap_batch_sequence_axes b.observations))
              (slice1 (swap_batch_sequence_axes b.controls)),
            Event.minimize loss env.optimizer_name] ++
          (if batch_idx % env.log_interval = 0 then
            [Event.logScalar "train_filter_recurrent" "Training loss" loss]
          else []) := by
  unfold processBatch at h
  by_cases g1 : b.states.shape.length < 2
  · rw [if_pos g1] at h; simp at h
  rw [if_neg g1] at h
  by_cases g2 : b.observations.shape.length < 2
  · rw [if_pos g2] at h; simp at h
  rw [if_neg g2] at h
  by_cases g3 : b.controls.shape.length < 2
  · rw [if_pos g3] at h; simp at h
  rw [if_neg g3] at h
  dsimp only at h
  cases hu : unpack3 (swap_batch_sequence_axes b.states).shape with
  | error e => rw [hu] at h; simp at h
  | ok tnd =>
    rw [hu] at h
    obtain ⟨T, N, d⟩ := tnd
    dsimp only at h
    have hs := unpack3_eq_ok hu
    by_cases h1 : d ≠ env.filter_model.state_dim
    · rw [if_pos h1] at h; simp at h
    rw [if_neg h1] at h
    by_cases h2 : (swap_batch_sequence_axes b.observations).shape.take 2 ≠ [T, N]
    · rw [if_pos h2] at h; simp at h
    rw [if_neg h2] at h
    by_cases h3 : (swap_batch_sequence_axes b.controls).shape.take 2 ≠ [T, N]
    · rw [if_pos h3] at h; simp at h
    rw [if_neg h3] at h
    by_cases h4 : batch_idx = 0 ∧ N ≠ env.batch_size
    · rw [if_pos h4] at h; simp at h
    rw [if_neg h4] at h
    simp only [ne_eq, not_not] at h1 h2 h3
    push_neg at h4
    subst h1
    refine ⟨T, N, hs, h2, h3, h4, ?_⟩
    rcases hib : populateInitialBelief env (swap_batch_sequence_axes b.states)
        (swap_batch_sequence_axes b.observations) N env.filter_model.state_dim with ⟨initEvs, rb⟩
    rw [hib] at h
    cases rb with
    | error e => dsimp only at h; simp at h
    | ok belief =>
      dsimp only at h
      obtain ⟨hv, hievs, hbel⟩ := populateInitialBelief_ok_inv env _ _ N hib
      subst hievs
      subst hbel
      rw [show env.filter_model.forward_loop
          (beliefFor env (swap_batch_sequence_axes b.states) (swap_batch_sequence_axes b.observations) N)
          (slice1 (swap_batch_sequence_axes b.observations))
          (slice1 (swap_batch_sequence_axes b.controls)) = predictionsFor env b N from rfl] at h
      rw [show env.loss_function (predictionsFor env b N)
          (slice1 (swap_batch_sequence_axes b.states)) = lossFor env b N from rfl] at h
      by_cases hp : (predictionsFor env b N).shape ≠ [T - 1, N, env.filter_model.state_dim]
      · rw [if_pos hp] at h; simp at h
      rw [if_neg hp] at h
      simp only [ne_eq, not_not] at hp
      by_cases hL : env.log_interval = 0
      · rw [if_pos hL] at h; simp at h
      rw [if_neg hL] at h
      by_cases hmod : batch_idx % env.log_interval = 0
      · rw [if_pos hmod] at h
        simp only [Prod.mk.injEq, Except.ok.injEq] at h
        obtain ⟨hevs, hloss⟩ := h
        refine ⟨hv, hp, hL, hloss.symm, ?_⟩
        rw [← hevs, if_pos hmod, hloss]
        simp
      · rw [if_neg hmod] at h
        simp only [Prod.mk.injEq, Except.ok.injEq] at h
        obtain ⟨hevs, hloss⟩ := h
        refine ⟨hv, hp, hL, hloss.symm, ?_⟩
        rw [← hevs, if_neg hmod, hloss]
        simp

/-- Predicate: the event is a gradient step (a `buddy.minimize` call). -/
def isMinimizeEvent : Event → Bool
  | Event.minimize _ _ => true
  | _ => false

/-- Predicate: the event is a `buddy.log_scalar` call. -/
def isLogScalarEvent : Event → Bool
  | Event.logScalar _ _ _ => true
  | _ => false

/-- The loss of every minibatch, in order, when all of them process
without an exception. -/
def batchLosses (env : Env) : Nat → List Batch → Option (List ℚ)
  | _, [] => some []
  | i, b :: rest =>
    match processBatch env i b with
    | (_, Except.ok l) => Option.map (fun ls => l :: ls) (batchLosses env (i + 1) rest)
    | (_, Except.error _) => none

theorem runBatches_nil (env : Env) (i : Nat) :
    runBatches env i [] = ([], Except.ok 0) := rfl

theorem runBatches_cons_error (env : Env) (i : Nat) (b : Batch) (rest : List Batch)
    (evs1 : List Event) (e : PyError) (h : processBatch env i b = (evs1, Except.error e)) :
    runBatches env i (b :: rest) = (evs1, Except.error e) := by
  unfold runBatches
  rw [h]

theorem runBatches_cons_ok (env : Env) (i : Nat) (b : Batch) (rest : List Batch)
    (evs1 : List Event) (l : ℚ) (h : processBatch env i b = (evs1, Except.ok l)) :
    runBatches env i (b :: rest) =
      ((evs1 ++ (runBatches env (i + 1) rest).1),
        match (runBatches env (i + 1) rest).2 with
        | Except.error e => Except.error e
        | Except.ok acc => Except.ok (l + acc)) := by
  rcases hr : runBatches env (i + 1) rest with ⟨evs2, r2⟩
  simp only [runBatches]
  rw [h, hr]
  cases r2 <;> simp

theorem runBatches_ok_elim (env : Env) (bs : List Batch) :
    ∀ (i : Nat) (evs : List Event) (s : ℚ),
      runBatches env i bs = (evs, Except.ok s) →
      ∃ ls, batchLosses env i bs = some ls ∧ ls.length = bs.length ∧ s = ls.sum := by
  induction bs with
  | nil =>
    intro i evs s h
    rw [runBatches_nil] at h
    simp only [Prod.mk.injEq, Except.ok.injEq] at h
    exact ⟨[], rfl, rfl, by simp [← h.2]⟩
  | cons b rest ih =>
    intro i evs s h
    rcases hpb : processBatch env i b with ⟨evs1, r1⟩
    cases r1 with
    | error e => rw [runBatches_cons_error env i b rest evs1 e hpb] at h; simp at h
    | ok l =>
      rw [runBatches_cons_ok env i b rest evs1 l hpb] at h
      rcases hr : (runBatches env (i + 1) rest).2 with e | acc
      · rw [hr] at h; simp at h
      · rw [hr] at h
        simp only [Prod.mk.injEq, Except.ok.injEq] at h
        obtain ⟨ls, hls, hlen, hsum⟩ :=
          ih (i + 1) (runBatches env (i + 1) rest).1 acc (by rw [← hr])
        refine ⟨l :: ls, ?_, by simp [hlen], ?_⟩
        · unfold batchLosses
          rw [hpb]
          simp [hls]
        · rw [← h.2, hsum]
          simp

/-- Exceptions raised inside a batch propagate out of the epoch loop
unchanged: if every batch before position `pre.length` succeeds and the
next batch raises `e`, the loop's result is `e`, with the trace of the
failed batch appended after the traces of the completed ones. -/
theorem runBatches_propagates (env : Env) (b : Batch) (e : PyError) :
    ∀ (pre : List Batch) (i : Nat) (post : List Batch) (evs1 : List Event),
      (∀ k, k < pre.length → ∀ hk : k < pre.length,
        ∃ evsk lk, processBatch env (i + k) (pre.get ⟨k, hk⟩) = (evsk, Except.ok lk)) →
      processBatch env (i + pre.length) b = (evs1, Except.error e) →
      ∃ evs0, runBatches env i (pre ++ b :: post) = (evs0 ++ evs1, Except.error e) := by
  intro pre
  induction pre with
  | nil =>
    intro i post evs1 _ hb
    simp only [List.length_nil, Nat.add_zero] at hb
    refine ⟨[], ?_⟩
    rw [List.nil_append, runBatches_cons_error env i b post evs1 e hb, List.nil_append]
  | cons p rest ih =>
    intro i post evs1 hpre hb
    obtain ⟨evs0, l0, hp⟩ := hpre 0 (by simp) (by simp)
    simp only [Nat.add_zero, List.get] at hp
    rw [List.cons_append, runBatches_cons_ok env i p (rest ++ b :: post) evs0 l0 hp]
    obtain ⟨evs2, hrest⟩ := ih (i + 1) post evs1
      (fun k hk hk2 => by
        have := hpre (k + 1) (by simpa using Nat.succ_lt_succ hk)
          (by simpa using Nat.succ_lt_succ hk)
        simpa [Nat.add_comm, Nat.add_assoc, Nat.add_left_comm] using this)
      (by simpa [Nat.add_comm, Nat.add_assoc, Nat.add_left_comm] using hb)
    rw [hrest]
    exact ⟨evs0 ++ evs2, by simp⟩

/-- Inversion of a successful run of `train_filter`: all top-level asserts
passed, there was at least one batch, every batch succeeded, and the
printed value is the loss sum divided by the number of batches. -/
theorem train_filter_ok_elim (env : Env) (evs : List Event) (avg : ℚ)
    (h : train_filter env = (evs, Except.ok avg)) :
    env.datasetIsSubsequence = true ∧
      env.initial_covariance.shape = [env.filter_model.state_dim, env.filter_model.state_dim] ∧
      env.filter_model.training = true ∧
      env.batches ≠ [] ∧
      ∃ ls, batchLosses env 0 env.batches = some ls ∧
        ls.length = env.batches.length ∧
        avg = ls.sum / (env.batches.length : ℚ) ∧
        ∃ evs0 s, runBatches env 0 env.batches = (evs0, Except.ok s) ∧
          ls.sum = s ∧ evs = evs0 ++ [Event.printEpochLoss avg] := by
  unfold train_filter at h
  by_cases hd : env.datasetIsSubsequence
  rotate_left
  · rw [if_pos (by simpa using hd)] at h; simp at h
  rw [if_neg (by simpa using hd)] at h
  by_cases hcov : env.initial_covariance.shape =
      [env.filter_model.state_dim, env.filter_model.state_dim]
  rotate_left
  · rw [if_pos hcov] at h; simp at h
  rw [if_neg (by simpa using hcov)] at h
  by_cases ht : env.filter_model.training
  rotate_left
  · rw [if_pos (by simpa using ht)] at h; simp at h
  rw [if_neg (by simpa using ht)] at h
  rcases hr : runBatches env 0 env.batches with ⟨evs0, r0⟩
  rw [hr] at h
  cases r0 with
  | error e => simp at h
  | ok s =>
    dsimp only at h
    by_cases hlen : env.batches.length = 0
    · rw [if_pos hlen] at h; simp at h
    rw [if_neg hlen] at h
    simp only [Prod.mk.injEq, Except.ok.injEq] at h
    obtain ⟨ls, hls, hlslen, hsum⟩ := runBatches_ok_elim env env.batches 0 evs0 s hr
    refine ⟨by simpa using hd, hcov, by simpa using ht,
      by simpa [← List.length_eq_zero] using hlen, ls, hls, hlslen, ?_,
      evs0, s, rfl, hsum.symm, ?_⟩
    · rw [← h.2, hsum]
    · rw [← h.1, h.2]

theorem countP_minimize_initEventsFor (env : Env) (sl obs : Tensor) (N : Nat) :
    (initEventsFor env sl obs N).countP isMinimizeEvent = 0 := by
  unfold initEventsFor
  by_cases hm : env.measurement_init <;> simp [hm, isMinimizeEvent]

theorem unpack3_error_of_length_ne (l : List Nat) (h : l.length ≠ 3) :
    unpack3 l =
      Except.error (PyError.valueError "tuple unpacking of states_labels.shape") := by
  match l with
  | [] => rfl
  | [a] => rfl
  | [a, b] => rfl
  | [a, b, c] => exact absurd rfl h
  | a :: b :: c :: e :: rest => rfl

/-- A tensor of rank below 2 raises `IndexError` at its transpose, before
any unpacking, assert, or call into a collaborator (the states tensor is
transposed first, then observations, then controls). -/
theorem processBatch_transpose_indexError (env : Env) (batch_idx : Nat) (b : Batch)
    (h : b.states.shape.length < 2 ∨ b.observations.shape.length < 2 ∨
      b.controls.shape.length < 2) :
    processBatch env batch_idx b =
      ([], Except.error (PyError.indexError
        "Dimension out of range (expected to be in range of [-1, 0], but got 1)")) := by
  unfold processBatch
  by_cases g1 : b.states.shape.length < 2
  · rw [if_pos g1]
  rw [if_neg g1]
  by_cases g2 : b.observations.shape.length < 2
  · rw [if_pos g2]
  rw [if_neg g2]
  rw [if_pos (by tauto)]

/-- With all three tensors of rank at least 2 (so the transposes succeed)
but a states tensor that is not 3-dimensional, the shape unpacking raises
`ValueError`, before any assert or call into a collaborator. -/
theorem processBatch_not3d (env : Env) (batch_idx : Nat) (b : Batch)
    (hs2 : 2 ≤ b.states.shape.length)
    (ho2 : 2 ≤ b.observations.shape.length)
    (hc2 : 2 ≤ b.controls.shape.length)
    (h : (swap_batch_sequence_axes b.states).shape.length ≠ 3) :
    processBatch env batch_idx b =
      ([], Except.error (PyError.valueError "tuple unpacking of states_labels.shape")) := by
  unfold processBatch
  rw [if_neg (by omega), if_neg (by omega), if_neg (by omega)]
  dsimp only
  rw [unpack3_error_of_length_ne _ h]

/-- Shapes that pass every assert but have an empty time axis (`T = 0`)
raise `IndexError` at the `[0]` indexing of the belief-initialization
block, in either branch, before `forward_loop` and before any gradient
step. -/
theorem processBatch_emptyT (env : Env) (batch_idx : Nat) (b : Batch) (N : Nat)
    (hs : (swap_batch_sequence_axes b.states).shape = [0, N, env.filter_model.state_dim])
    (ho : (swap_batch_sequence_axes b.observations).shape.take 2 = [0, N])
    (hc : (swap_batch_sequence_axes b.controls).shape.take 2 = [0, N])
    (hb : batch_idx = 0 → N = env.batch_size)
    (hv : env.measurement_init = true → env.filter_model.isVirtualSensorEKF = true) :
    processBatch env batch_idx b =
      ([], Except.error (PyError.indexError
        "index 0 is out of bounds for dimension 0 with size 0")) := by
  have hslen : b.states.shape.length = 3 := by
    have := congrArg List.length hs
    rw [swap_shape_length] at this
    simpa using this
  obtain ⟨ro, hoeq⟩ := take2_eq_cons ho
  obtain ⟨rc, hceq⟩ := take2_eq_cons hc
  have holen : 2 ≤ b.observations.shape.length := by
    rw [← swap_shape_length, hoeq]
    simp
  have hclen : 2 ≤ b.controls.shape.length := by
    rw [← swap_shape_length, hceq]
    simp
  unfold processBatch
  rw [if_neg (by omega), if_neg (by omega), if_neg (by omega)]
  dsimp only
  rw [hs]
  simp only [unpack3]
  rw [if_neg (by simp), if_neg (by simp [ho]), if_neg (by simp [hc]),
    if_neg (by rintro ⟨h0, hN⟩; exact hN (hb h0))]
  rw [populateInitialBelief_emptyT env _ _ N env.filter_model.state_dim
    (N :: [env.filter_model.state_dim]) (N :: ro) hs hoeq hv]

/-- When the states tensor is 3-dimensional, the other tensors have rank
at least 2, the time axis is nonempty, and some asserted condition of the
loop body fails, the body raises `AssertionError`, and its trace contains
no gradient step. -/
theorem processBatch_assert_violation (env : Env) (batch_idx : Nat) (b : Batch)
    (T N d : Nat)
    (hs : (swap_batch_sequence_axes b.states).shape = [T, N, d])
    (ho2 : 2 ≤ (swap_batch_sequence_axes b.observations).shape.length)
    (hc2 : 2 ≤ (swap_batch_sequence_axes b.controls).shape.length)
    (hT : T ≠ 0)
    (hbad : ¬(d = env.filter_model.state_dim ∧
        (swap_batch_sequence_axes b.observations).shape.take 2 = [T, N] ∧
        (swap_batch_sequence_axes b.controls).shape.take 2 = [T, N] ∧
        (batch_idx = 0 → N = env.batch_size) ∧
        (env.measurement_init = true → env.filter_model.isVirtualSensorEKF = true) ∧
        (predictionsFor env b N).shape = [T - 1, N, env.filter_model.state_dim])) :
    ∃ evs msg,
      processBatch env batch_idx b = (evs, Except.error (PyError.assertionError msg)) ∧
        evs.countP isMinimizeEvent = 0 := by
  have hslen : b.states.shape.length = 3 := by
    have := congrArg List.length hs
    rw [swap_shape_length] at this
    simpa using this
  have holen : 2 ≤ b.observations.shape.length := by
    rw [← swap_shape_length]
    exact ho2
  have hclen : 2 ≤ b.controls.shape.length := by
    rw [← swap_shape_length]
    exact hc2
  have hsl0 : (swap_batch_sequence_axes b.states).shape.headD 0 ≠ 0 := by
    rw [hs]
    simpa using hT
  unfold processBatch
  rw [if_neg (by omega), if_neg (by omega), if_neg (by omega)]
  dsimp only
  rw [hs]
  simp only [unpack3]
  by_cases h1 : d = env.filter_model.state_dim
  rotate_left
  · rw [if_pos h1]
    exact ⟨[], _, rfl, rfl⟩
  subst h1
  rw [if_neg (by simp)]
  by_cases h2 : (swap_batch_sequence_axes b.observations).shape.take 2 = [T, N]
  rotate_left
  · rw [if_pos h2]
    exact ⟨[], _, rfl, rfl⟩
  rw [if_neg (by simpa using h2)]
  obtain ⟨ro, hoeq⟩ := take2_eq_cons h2
  have hobs0 : (swap_batch_sequence_axes b.observations).shape.headD 0 ≠ 0 := by
    rw [hoeq]
    simpa using hT
  by_cases h3 : (swap_batch_sequence_axes b.controls).shape.take 2 = [T, N]
  rotate_left
  · rw [if_pos h3]
    exact ⟨[], _, rfl, rfl⟩
  rw [if_neg (by simpa using h3)]
  by_cases h4 : batch_idx = 0 ∧ N ≠ env.batch_size
  · rw [if_pos h4]
    exact ⟨[], _, rfl, rfl⟩
  rw [if_neg h4]
  push_neg at h4
  by_cases hm : env.measurement_init = true
  · by_cases hk : env.filter_model.isVirtualSensorEKF = true
    rotate_left
    · rw [show populateInitialBelief env (swap_batch_sequence_axes b.states)
          (swap_batch_sequence_axes b.observations) N env.filter_model.state_dim =
          ([], Except.error (PyError.assertionError "Only supported for virtual sensor EKFs!"))
          from by
        unfold populateInitialBelief
        rw [if_pos hm, if_neg (by simpa using hk)]]
      exact ⟨[], _, rfl, rfl⟩
    · rw [populateInitialBelief_ok env _ _ _ (fun _ => hk) hsl0 hobs0]
      dsimp only
      rw [show env.filter_model.forward_loop
          (beliefFor env (swap_batch_sequence_axes b.states)
            (swap_batch_sequence_axes b.observations) N)
          (slice1 (swap_batch_sequence_axes b.observations))
          (slice1 (swap_batch_sequence_axes b.controls)) = predictionsFor env b N from rfl]
      by_cases hp : (predictionsFor env b N).shape = [T - 1, N, env.filter_model.state_dim]
      · exact absurd ⟨rfl, h2, h3, h4, fun _ => hk, hp⟩ hbad
      · rw [if_pos (by simpa using hp)]
        refine ⟨_, _, rfl, ?_⟩
        simp [List.countP_append, countP_minimize_initEventsFor, isMinimizeEvent]
  · rw [populateInitialBelief_ok env _ _ _ (fun c => absurd c hm) hsl0 hobs0]
    dsimp only
    rw [show env.filter_model.forward_loop
        (beliefFor env (swap_batch_sequence_axes b.states)
          (swap_batch_sequence_axes b.observations) N)
        (slice1 (swap_batch_sequence_axes b.observations))
        (slice1 (swap_batch_sequence_axes b.controls)) = predictionsFor env b N from rfl]
    by_cases hp : (predictionsFor env b N).shape = [T - 1, N, env.filter_model.state_dim]
    · exact absurd ⟨rfl, h2, h3, h4, fun c => absurd c hm, hp⟩ hbad
    · rw [if_pos (by simpa using hp)]
      refine ⟨_, _, rfl, ?_⟩
      simp [List.countP_append, countP_minimize_initEventsFor, isMinimizeEvent]

/-- The dataloader's `batch_size` attribute is consulted nowhere in the
loop body except in the first-batch assertion, so for `batch_idx ≠ 0` the
body's behaviour does not depend on it at all. -/
theorem processBatch_batch_size_irrelevant (env : Env) (m : Nat) (batch_idx : Nat)
    (b : Batch) (hidx : batch_idx ≠ 0) :
    processBatch { env with batch_size := m } batch_idx b = processBatch env batch_idx b := by
  unfold processBatch
  by_cases g1 : b.states.shape.length < 2
  · rw [if_pos g1, if_pos g1]
  rw [if_neg g1, if_neg g1]
  by_cases g2 : b.observations.shape.length < 2
  · rw [if_pos g2, if_pos g2]
  rw [if_neg g2, if_neg g2]
  by_cases g3 : b.controls.shape.length < 2
  · rw [if_pos g3, if_pos g3]
  rw [if_neg g3, if_neg g3]
  dsimp only
  cases unpack3 (swap_batch_sequence_axes b.states).shape with
  | error e => rfl
  | ok tnd =>
    obtain ⟨T, N, d⟩ := tnd
    dsimp only
    rw [if_neg (show ¬(batch_idx = 0 ∧ N ≠ m) from fun hand => hidx hand.1),
      if_neg (show ¬(batch_idx = 0 ∧ N ≠ env.batch_size) from fun hand => hidx hand.1)]
    rfl

theorem processBatch_ok_countP (env : Env) (batch_idx : Nat) (b : Batch)
    (evs : List Event) (loss : ℚ)
    (h : processBatch env batch_idx b = (evs, Except.ok loss)) :
    evs.countP isMinimizeEvent = 1 ∧ Event.minimize loss env.optimizer_name ∈ evs := by
  obtain ⟨T, N, _, _, _, _, _, _, _, _, hevs⟩ := processBatch_ok_elim env batch_idx b evs loss h
  subst hevs
  constructor
  · by_cases hmod : batch_idx % env.log_interval = 0 <;>
      simp [hmod, List.countP_append, countP_minimize_initEventsFor, isMinimizeEvent,
        List.countP_cons]
  · simp

theorem runBatches_countP_minimize (env : Env) (bs : List Batch) :
    ∀ (i : Nat) (evs : List Event) (s : ℚ),
      runBatches env i bs = (evs, Except.ok s) →
      evs.countP isMinimizeEvent = bs.length := by
  induction bs with
  | nil =>
    intro i evs s h
    rw [runBatches_nil] at h
    simp only [Prod.mk.injEq] at h
    rw [← h.1]
    rfl
  | cons b rest ih =>
    intro i evs s h
    rcases hpb : processBatch env i b with ⟨evs1, r1⟩
    cases r1 with
    | error e => rw [runBatches_cons_error env i b rest evs1 e hpb] at h; simp at h
    | ok l =>
      rw [runBatches_cons_ok env i b rest evs1 l hpb] at h
      rcases hr : (runBatches env (i + 1) rest).2 with e | acc
      · rw [hr] at h; simp at h
      · rw [hr] at h
        simp only [Prod.mk.injEq] at h
        rw [← h.1, List.countP_append]
        have h1 := (processBatch_ok_countP env i b evs1 l hpb).1
        have h2 := ih (i + 1) (runBatches env (i + 1) rest).1 acc (by rw [← hr])
        rw [h1, h2]
        simp [Nat.add_comm]

/-- Exceptions raised in the loop body propagate out of `train_filter`
unchanged (no `except` block anywhere): with the top-level asserts passing,
if the batches before position `pre.length` succeed and the next batch
raises `e`, `train_filter` ends with exactly `e`, its trace ending with the
failing batch's partial trace (in particular no epoch-loss print). -/
theorem train_filter_propagates (env : Env) (pre : List Batch) (b : Batch)
    (post : List Batch) (evs1 : List Event) (e : PyError)
    (henv : env.batches = pre ++ b :: post)
    (hd : env.datasetIsSubsequence = true)
    (hcov : env.initial_covariance.shape =
      [env.filter_model.state_dim, env.filter_model.state_dim])
    (ht : env.filter_model.training = true)
    (hpre : ∀ k, ∀ hk : k < pre.length,
      ∃ evsk lk, processBatch env k (pre.get ⟨k, hk⟩) = (evsk, Except.ok lk))
    (hb : processBatch env pre.length b = (evs1, Except.error e)) :
    ∃ evs0, train_filter env = (evs0 ++ evs1, Except.error e) := by
  obtain ⟨evs0, hrun⟩ := runBatches_propagates env b e pre 0 post evs1
    (fun k hk hk2 => by simpa using hpre k hk2) (by simpa using hb)
  refine ⟨evs0, ?_⟩
  unfold train_filter
  rw [if_neg (by simp [hd]), if_neg (by simpa using hcov), if_neg (by simp [ht]),
    henv, hrun]

/-- With the three top-level asserts passing but an empty dataloader, the
final average is a division by zero. -/
theorem train_filter_empty_batches (env : Env)
    (hempty : env.batches = [])
    (hd : env.datasetIsSubsequence = true)
    (hcov : env.initial_covariance.shape =
      [env.filter_model.state_dim, env.filter_model.state_dim])
    (ht : env.filter_model.training = true) :
    train_filter env = ([], Except.error PyError.zeroDivisionError) := by
  unfold train_filter
  rw [if_neg (by simp [hd]), if_neg (by simpa using hcov), if_neg (by simp [ht]),
    hempty, runBatches_nil]
  rfl

/-! ## Concrete fixtures for the closed instances below -/

/-- A tensor of the given shape, filled with zeros. -/
def tensorZ (shape : List Nat) : Tensor := ⟨shape, fun _ => 0⟩

/-- A concrete filter model: `state_dim = 1`, train mode, not a
virtual-sensor EKF, with a `forward_loop` returning a `(1, 1, 1)` tensor. -/
def filterModelW : FilterModel := ⟨1, true, false, fun _ _ _ => tensorZ [1, 1, 1]⟩

/-- A concrete minibatch with batch-major shape `(N, T, state_dim) = (1, 2, 1)`. -/
def batchW : Batch := ⟨tensorZ [1, 2, 1], tensorZ [1, 2, 1], tensorZ [1, 2, 1]⟩

/-- A concrete well-formed environment with a single minibatch. -/
def envW : Env :=
  ⟨filterModelW, true, 1, [batchW], tensorZ [1, 1], fun _ _ => 0, 10, false,
    "train_filter_recurrent", fun m _ => m⟩

/-- The time-major version of the tensors of `batchW`. -/
def slW : Tensor := swap_batch_sequence_axes (tensorZ [1, 2, 1])

/-- The trace of the single minibatch of `envW`. -/
def evsW : List Event :=
  initEventsFor envW slW slW 1 ++
    [Event.forwardLoop (slice1 slW) (slice1 slW),
      Event.minimize (lossFor envW batchW 1) "train_filter_recurrent",
      Event.logScalar "train_filter_recurrent" "Training loss" (lossFor envW batchW 1)]

/-- A minibatch whose states tensor is only 2-dimensional. -/
def batchBad : Batch := ⟨tensorZ [1, 1], tensorZ [1, 2, 1], tensorZ [1, 2, 1]⟩

/-! ## The claims -/

/-- C1: for every minibatch processed by `train_filter`, the loop body
performs these steps in this order: transpose the batch-major tensors
(states, observations, controls) to time-major, initialize the filter's
belief (either from the learned virtual-sensor initializer or from the
initial covariance), run the filter's `forward_loop` over the trajectory,
compute the loss between the filter's predictions and the ground-truth
states, and then call `buddy.minimize` to take one gradient step. -/
theorem C1_train_filter_step_order (env : Env) (batch_idx : Nat) (b : Batch)
    (evs : List Event) (loss : ℚ)
    (h : processBatch env batch_idx b = (evs, Except.ok loss)) :
    ∃ T N initEv logEvs,
      (swap_batch_sequence_axes b.states).shape = [T, N, env.filter_model.state_dim] ∧
      evs = initEv ::
          Event.forwardLoop (slice1 (swap_batch_sequence_axes b.observations))
            (slice1 (swap_batch_sequence_axes b.controls)) ::
          Event.minimize loss env.optimizer_name :: logEvs ∧
      (initEv = Event.virtualSensorInitializeBeliefs
          (index0 (swap_batch_sequence_axes b.observations)) ∨
        ∃ mean cov, initEv = Event.initializeBeliefs mean cov) ∧
      loss = env.loss_function (predictionsFor env b N)
          (slice1 (swap_batch_sequence_axes b.states)) := by
  obtain ⟨T, N, hs, -, -, -, -, -, -, hloss, hevs⟩ :=
    processBatch_ok_elim env batch_idx b evs loss h
  unfold initEventsFor at hevs
  by_cases hm : env.measurement_init
  · rw [if_pos hm] at hevs
    exact ⟨T, N, _, _, hs, by simpa using hevs, Or.inl rfl, hloss⟩
  · rw [if_neg hm] at hevs
    exact ⟨T, N, _, _, hs, by simpa using hevs, Or.inr ⟨_, _, rfl⟩, hloss⟩

theorem C1_witness :
    processBatch envW 0 batchW = (evsW, Except.ok (lossFor envW batchW 1)) ∧
    ∃ T N initEv logEvs,
      (swap_batch_sequence_axes batchW.states).shape = [T, N, envW.filter_model.state_dim] ∧
      evsW = initEv ::
          Event.forwardLoop (slice1 (swap_batch_sequence_axes batchW.observations))
            (slice1 (swap_batch_sequence_axes batchW.controls)) ::
          Event.minimize (lossFor envW batchW 1) envW.optimizer_name :: logEvs ∧
      (initEv = Event.virtualSensorInitializeBeliefs
          (index0 (swap_batch_sequence_axes batchW.observations)) ∨
        ∃ mean cov, initEv = Event.initializeBeliefs mean cov) ∧
      lossFor envW batchW 1 = envW.loss_function (predictionsFor envW batchW 1)
          (slice1 (swap_batch_sequence_axes batchW.states)) :=
  ⟨rfl, C1_train_filter_step_order envW 0 batchW evsW (lossFor envW batchW 1) rfl⟩

/-- C3: `_swap_batch_sequence_axes` maps a tensor of shape `(N, T, ...)`
to one of shape `(T, N, ...)` by exchanging the first two axes: element
`[n, t, ...]` of the input equals element `[t, n, ...]` of the output, and
applying the operation twice returns the original tensor. -/
theorem C3_swap_batch_sequence_axes_spec (t : Tensor) (N T : Nat) (rest : List Nat)
    (h : t.shape = N :: T :: rest) :
    (swap_batch_sequence_axes t).shape = T :: N :: rest ∧
    (∀ n τ idx, t.elem (n :: τ :: idx) = (swap_batch_sequence_axes t).elem (τ :: n :: idx)) ∧
    swap_batch_sequence_axes (swap_batch_sequence_axes t) = t := by
  refine ⟨?_, fun n τ idx => rfl, swap_batch_sequence_axes_involutive t⟩
  rw [show (swap_batch_sequence_axes t).shape = swapFirstTwo t.shape from rfl, h]
  rfl

theorem C3_witness :
    (tensorZ [2, 3, 4]).shape = 2 :: 3 :: [4] ∧
    ((swap_batch_sequence_axes (tensorZ [2, 3, 4])).shape = 3 :: 2 :: [4] ∧
      (∀ n τ idx, (tensorZ [2, 3, 4]).elem (n :: τ :: idx) =
        (swap_batch_sequence_axes (tensorZ [2, 3, 4])).elem (τ :: n :: idx)) ∧
      swap_batch_sequence_axes (swap_batch_sequence_axes (tensorZ [2, 3, 4])) =
        tensorZ [2, 3, 4]) :=
  ⟨rfl, C3_swap_batch_sequence_axes_spec (tensorZ [2, 3, 4]) 2 3 [4] rfl⟩

/-- C5: for every minibatch, the loss applies `loss_function` to the
filter's predictions and the ground-truth state labels restricted to
timesteps `1 .. T-1` (timestep 0 is excluded), where the predictions come
from `forward_loop` applied to observations and controls sliced from
timestep 1 onward. -/
theorem C5_loss_excludes_first_timestep (env : Env) (batch_idx : Nat) (b : Batch)
    (evs : List Event) (loss : ℚ)
    (h : processBatch env batch_idx b = (evs, Except.ok loss)) :
    ∃ T N,
      (swap_batch_sequence_axes b.states).shape = [T, N, env.filter_model.state_dim] ∧
      loss = env.loss_function (predictionsFor env b N)
        (slice1 (swap_batch_sequence_axes b.states)) ∧
      predictionsFor env b N =
        env.filter_model.forward_loop
          (beliefFor env (swap_batch_sequence_axes b.states)
            (swap_batch_sequence_axes b.observations) N)
          (slice1 (swap_batch_sequence_axes b.observations))
          (slice1 (swap_batch_sequence_axes b.controls)) ∧
      (slice1 (swap_batch_sequence_axes b.states)).shape =
        [T - 1, N, env.filter_model.state_dim] ∧
      (∀ i idx, (slice1 (swap_batch_sequence_axes b.states)).elem (i :: idx) =
        (swap_batch_sequence_axes b.states).elem ((i + 1) :: idx)) ∧
      (∀ i idx, (slice1 (swap_batch_sequence_axes b.observations)).elem (i :: idx) =
        (swap_batch_sequence_axes b.observations).elem ((i + 1) :: idx)) ∧
      (∀ i idx, (slice1 (swap_batch_sequence_axes b.controls)).elem (i :: idx) =
        (swap_batch_sequence_axes b.controls).elem ((i + 1) :: idx)) := by
  obtain ⟨T, N, hs, -, -, -, -, -, -, hloss, -⟩ :=
    processBatch_ok_elim env batch_idx b evs loss h
  refine ⟨T, N, hs, hloss, rfl, ?_, fun i idx => rfl, fun i idx => rfl, fun i idx => rfl⟩
  simp [slice1, hs]

theorem C5_witness :
    processBatch envW 0 batchW = (evsW, Except.ok (lossFor envW batchW 1)) ∧
    ∃ T N,
      (swap_batch_sequence_axes batchW.states).shape = [T, N, envW.filter_model.state_dim] ∧
      lossFor envW batchW 1 = envW.loss_function (predictionsFor envW batchW N)
        (slice1 (swap_batch_sequence_axes batchW.states)) ∧
      predictionsFor envW batchW N =
        envW.filter_model.forward_loop
          (beliefFor envW (swap_batch_sequence_axes batchW.states)
            (swap_batch_sequence_axes batchW.observations) N)
          (slice1 (swap_batch_sequence_axes batchW.observations))
          (slice1 (swap_batch_sequence_axes batchW.controls)) ∧
      (slice1 (swap_batch_sequence_axes batchW.states)).shape =
        [T - 1, N, envW.filter_model.state_dim] ∧
      (∀ i idx, (slice1 (swap_batch_sequence_axes batchW.states)).elem (i :: idx) =
        (swap_batch_sequence_axes batchW.states).elem ((i + 1) :: idx)) ∧
      (∀ i idx, (slice1 (swap_batch_sequence_axes batchW.observations)).elem (i :: idx) =
        (swap_batch_sequence_axes batchW.observations).elem ((i + 1) :: idx)) ∧
      (∀ i idx, (slice1 (swap_batch_sequence_axes batchW.controls)).elem (i :: idx) =
        (swap_batch_sequence_axes batchW.controls).elem ((i + 1) :: idx)) :=
  ⟨rfl, C5_loss_excludes_first_timestep envW 0 batchW evsW (lossFor envW batchW 1) rfl⟩

/-- C6: belief initialization is a two-way branch on
`measurement_initialize`: when true, the model must be a virtual-sensor
EKF (asserted otherwise) and the beliefs are initialized from the
first-timestep observations; when false, the beliefs are initialized with
a mean sampled from a Gaussian centered at the ground-truth start state
`states_labels[0]` and with `initial_covariance` expanded to one copy per
batch element, of shape `(N, state_dim, state_dim)`. -/
theorem C6_belief_initialization (env : Env) (batch_idx : Nat) (b : Batch)
    (evs : List Event) (loss : ℚ)
    (h : processBatch env batch_idx b = (evs, Except.ok loss)) :
    (env.measurement_init = true → env.filter_model.isVirtualSensorEKF = false →
      ∀ sl obs n d, populateInitialBelief env sl obs n d =
        ([], Except.error (PyError.assertionError "Only supported for virtual sensor EKFs!"))) ∧
    ∃ T N,
      (swap_batch_sequence_axes b.states).shape = [T, N, env.filter_model.state_dim] ∧
      (env.measurement_init = true →
        env.filter_model.isVirtualSensorEKF = true ∧
        Event.virtualSensorInitializeBeliefs
          (index0 (swap_batch_sequence_axes b.observations)) ∈ evs) ∧
      (env.measurement_init = false →
        Event.initializeBeliefs
            (env.sample (index0 (swap_batch_sequence_axes b.states))
              (expandCov env.initial_covariance N env.filter_model.state_dim))
            (expandCov env.initial_covariance N env.filter_model.state_dim) ∈ evs ∧
        (expandCov env.initial_covariance N env.filter_model.state_dim).shape =
          [N, env.filter_model.state_dim, env.filter_model.state_dim] ∧
        (∀ n idx, (expandCov env.initial_covariance N env.filter_model.state_dim).elem
          (n :: idx) = env.initial_covariance.elem idx) ∧
        (∀ idx, (index0 (swap_batch_sequence_axes b.states)).elem idx =
          (swap_batch_sequence_axes b.states).elem (0 :: idx))) := by
  obtain ⟨T, N, hs, -, -, -, hv, -, -, -, hevs⟩ :=
    processBatch_ok_elim env batch_idx b evs loss h
  subst hevs
  refine ⟨?_, T, N, hs, ?_, ?_⟩
  · intro hm hk sl obs n d
    unfold populateInitialBelief
    rw [if_pos hm, if_neg (by simp [hk])]
  · intro hm
    refine ⟨hv hm, ?_⟩
    simp [initEventsFor, hm]
  · intro hm
    refine ⟨?_, rfl, fun n idx => rfl, fun idx => rfl⟩
    simp [initEventsFor, hm]

theorem C6_witness :
    processBatch envW 0 batchW = (evsW, Except.ok (lossFor envW batchW 1)) ∧
    ((envW.measurement_init = true → envW.filter_model.isVirtualSensorEKF = false →
      ∀ sl obs n d, populateInitialBelief envW sl obs n d =
        ([], Except.error (PyError.assertionError "Only supported for virtual sensor EKFs!"))) ∧
    ∃ T N,
      (swap_batch_sequence_axes batchW.states).shape = [T, N, envW.filter_model.state_dim] ∧
      (envW.measurement_init = true →
        envW.filter_model.isVirtualSensorEKF = true ∧
        Event.virtualSensorInitializeBeliefs
          (index0 (swap_batch_sequence_axes batchW.observations)) ∈ evsW) ∧
      (envW.measurement_init = false →
        Event.initializeBeliefs
            (envW.sample (index0 (swap_batch_sequence_axes batchW.states))
              (expandCov envW.initial_covariance N envW.filter_model.state_dim))
            (expandCov envW.initial_covariance N envW.filter_model.state_dim) ∈ evsW ∧
        (expandCov envW.initial_covariance N envW.filter_model.state_dim).shape =
          [N, envW.filter_model.state_dim, envW.filter_model.state_dim] ∧
        (∀ n idx, (expandCov envW.initial_covariance N envW.filter_model.state_dim).elem
          (n :: idx) = envW.initial_covariance.elem idx) ∧
        (∀ idx, (index0 (swap_batch_sequence_axes batchW.states)).elem idx =
          (swap_batch_sequence_axes batchW.states).elem (0 :: idx)))) :=
  ⟨rfl, C6_belief_initialization envW 0 batchW evsW (lossFor envW batchW 1) rfl⟩

/-- C7: optimizer state and gradient descent are fully delegated: every
successfully processed minibatch makes exactly one `buddy.minimize` call,
with the computed loss and the configured optimizer name, and a successful
epoch makes exactly one such call per minibatch. -/
theorem C7_minimize_delegation (env : Env) :
    (∀ batch_idx b evs loss,
      processBatch env batch_idx b = (evs, Except.ok loss) →
      evs.countP isMinimizeEvent = 1 ∧ Event.minimize loss env.optimizer_name ∈ evs) ∧
    (∀ evs avg, train_filter env = (evs, Except.ok avg) →
      evs.countP isMinimizeEvent = env.batches.length) := by
  constructor
  · exact fun batch_idx b evs loss h => processBatch_ok_countP env batch_idx b evs loss h
  · intro evs avg h
    obtain ⟨-, -, -, -, ls, -, -, -, evs0, s, hr, -, hevs⟩ :=
      train_filter_ok_elim env evs avg h
    subst hevs
    rw [List.countP_append, runBatches_countP_minimize env env.batches 0 evs0 s hr]
    simp [isMinimizeEvent]

theorem C7_witness :
    ((processBatch envW 0 batchW = (evsW, Except.ok (lossFor envW batchW 1))) ∧
      evsW.countP isMinimizeEvent = 1 ∧
      Event.minimize (lossFor envW batchW 1) envW.optimizer_name ∈ evsW) ∧
    ((train_filter envW =
        (evsW ++ [Event.printEpochLoss ((lossFor envW batchW 1 + 0) / ((1 : Nat) : ℚ))],
          Except.ok ((lossFor envW batchW 1 + 0) / ((1 : Nat) : ℚ)))) ∧
      (evsW ++ [Event.printEpochLoss ((lossFor envW batchW 1 + 0) / ((1 : Nat) : ℚ))]).countP
        isMinimizeEvent = envW.batches.length) :=
  ⟨⟨rfl, (C7_minimize_delegation envW).1 0 batchW evsW (lossFor envW batchW 1) rfl⟩,
    ⟨rfl, (C7_minimize_delegation envW).2
      (evsW ++ [Event.printEpochLoss ((lossFor envW batchW 1 + 0) / ((1 : Nat) : ℚ))])
      ((lossFor envW batchW 1 + 0) / ((1 : Nat) : ℚ)) rfl⟩⟩

/-- C8: scalar logging is delegated to the training helper and happens on
exactly the minibatches whose index satisfies
`batch_idx % log_interval == 0`; the first minibatch (index 0) is always
logged, and between two consecutive logged indices exactly `log_interval`
minibatches elapse. -/
theorem C8_logging_interval (env : Env) (batch_idx : Nat) (b : Batch)
    (evs : List Event) (loss : ℚ)
    (h : processBatch env batch_idx b = (evs, Except.ok loss)) :
    (Event.logScalar "train_filter_recurrent" "Training loss" loss ∈ evs ↔
      batch_idx % env.log_interval = 0) ∧
    (batch_idx = 0 → Event.logScalar "train_filter_recurrent" "Training loss" loss ∈ evs) ∧
    (batch_idx % env.log_interval = 0 →
      (batch_idx + env.log_interval) % env.log_interval = 0 ∧
      ∀ j, batch_idx < j → j < batch_idx + env.log_interval → j % env.log_interval ≠ 0) := by
  obtain ⟨T, N, -, -, -, -, -, -, hL, -, hevs⟩ :=
    processBatch_ok_elim env batch_idx b evs loss h
  subst hevs
  have hmem : ∀ hmod : batch_idx % env.log_interval = 0,
      Event.logScalar "train_filter_recurrent" "Training loss" loss ∈
        initEventsFor env (swap_batch_sequence_axes b.states)
            (swap_batch_sequence_axes b.observations) N ++
          [Event.forwardLoop (slice1 (swap_batch_sequence_axes b.observations))
              (slice1 (swap_batch_sequence_axes b.controls)),
            Event.minimize loss env.optimizer_name] ++
          (if batch_idx % env.log_interval = 0 then
            [Event.logScalar "train_filter_recurrent" "Training loss" loss]
          else []) := by
    intro hmod
    rw [if_pos hmod]
    simp
  refine ⟨⟨?_, hmem⟩, fun h0 => hmem (by simp [h0]), fun hmod => ⟨?_, ?_⟩⟩
  · intro hin
    by_cases hmod : batch_idx % env.log_interval = 0
    · exact hmod
    · exfalso
      rw [if_neg hmod] at hin
      by_cases hm : env.measurement_init <;>
        simp [initEventsFor, hm] at hin
  · rw [Nat.add_mod_right]
    exact hmod
  · intro j hj1 hj2 hjmod
    have hdvd1 : env.log_interval ∣ batch_idx := Nat.dvd_of_mod_eq_zero hmod
    have hdvd2 : env.log_interval ∣ j := Nat.dvd_of_mod_eq_zero hjmod
    have hdvd3 : env.log_interval ∣ j - batch_idx := Nat.dvd_sub' hdvd2 hdvd1
    have : env.log_interval ≤ j - batch_idx := Nat.le_of_dvd (by omega) hdvd3
    omega

theorem C8_witness :
    processBatch envW 0 batchW = (evsW, Except.ok (lossFor envW batchW 1)) ∧
    ((Event.logScalar "train_filter_recurrent" "Training loss" (lossFor envW batchW 1) ∈ evsW ↔
      0 % envW.log_interval = 0) ∧
    (0 = 0 → Event.logScalar "train_filter_recurrent" "Training loss"
      (lossFor envW batchW 1) ∈ evsW) ∧
    (0 % envW.log_interval = 0 →
      (0 + envW.log_interval) % envW.log_interval = 0 ∧
      ∀ j, 0 < j → j < 0 + envW.log_interval → j % envW.log_interval ≠ 0)) :=
  ⟨rfl, C8_logging_interval envW 0 batchW evsW (lossFor envW batchW 1) rfl⟩

/-- An environment whose second minibatch has a 2-dimensional states tensor. -/
def envC2 : Env := { envW with batches := [batchW, batchBad] }

/-- An environment whose dataloader `batch_size` disagrees with the actual
first-minibatch size `N = 1`. -/
def envC4 : Env := { envW with batch_size := 2 }

/-- An environment whose dataloader yields no batches. -/
def envE : Env := { envW with batches := [] }

/-- An environment whose dataset is not a `SubsequenceDataset`. -/
def envD : Env := { envW with datasetIsSubsequence := false }

/-- C2 counterexample: an input violating the shape-agreement precondition
(the second minibatch's states tensor is 2-dimensional, so it cannot have
the required `(T, N, state_dim)` shape) on which the function raises a
`ValueError` from tuple unpacking — not an `AssertionError` — and only
after a gradient step was already taken for the first minibatch. -/
theorem C2_counterexample :
    train_filter envC2 =
      (evsW, Except.error (PyError.valueError "tuple unpacking of states_labels.shape")) ∧
    evsW.countP isMinimizeEvent = 1 ∧
    (swap_batch_sequence_axes batchBad.states).shape.length = 2 :=
  ⟨rfl, rfl, rfl⟩

/-- C2 (amended): error handling consists only of precondition checks that
raise and abort, with no recovery, retry, or structured error result:
violating the dataset-type, covariance-shape or train-mode precondition
raises `AssertionError` before any gradient step; a minibatch whose
tensors torch accepts (all of rank at least 2, states 3-dimensional,
nonempty time axis) but which violates an asserted shape/mode condition
raises `AssertionError` with no gradient step for that minibatch; a
tensor of rank below 2 instead raises `IndexError` at `torch.transpose`,
a states tensor of other rank than 3 raises `ValueError` at shape
unpacking, and an empty time axis raises `IndexError` at the `[0]`
indexing of belief initialization — each before any collaborator call of
that minibatch (though earlier minibatches have already stepped); and no
error is caught or translated: the first exception propagates unchanged
and ends the run. -/
theorem C2_error_handling (env : Env) :
    (env.datasetIsSubsequence = false →
      train_filter env = ([], Except.error (PyError.assertionError
        "isinstance(dataloader.dataset, torchfilter.data.SubsequenceDataset)"))) ∧
    (env.datasetIsSubsequence = true →
      env.initial_covariance.shape ≠
        [env.filter_model.state_dim, env.filter_model.state_dim] →
      train_filter env = ([], Except.error (PyError.assertionError
        "initial_covariance.shape == (filter_model.state_dim, filter_model.state_dim)"))) ∧
    (env.datasetIsSubsequence = true →
      env.initial_covariance.shape =
        [env.filter_model.state_dim, env.filter_model.state_dim] →
      env.filter_model.training = false →
      train_filter env = ([], Except.error (PyError.assertionError
        "Model needs to be set to train mode"))) ∧
    (∀ batch_idx b T N d,
      (swap_batch_sequence_axes b.states).shape = [T, N, d] →
      2 ≤ (swap_batch_sequence_axes b.observations).shape.length →
      2 ≤ (swap_batch_sequence_axes b.controls).shape.length →
      T ≠ 0 →
      ¬(d = env.filter_model.state_dim ∧
        (swap_batch_sequence_axes b.observations).shape.take 2 = [T, N] ∧
        (swap_batch_sequence_axes b.controls).shape.take 2 = [T, N] ∧
        (batch_idx = 0 → N = env.batch_size) ∧
        (env.measurement_init = true → env.filter_model.isVirtualSensorEKF = true) ∧
        (predictionsFor env b N).shape = [T - 1, N, env.filter_model.state_dim]) →
      ∃ evs msg,
        processBatch env batch_idx b = (evs, Except.error (PyError.assertionError msg)) ∧
          evs.countP isMinimizeEvent = 0) ∧
    (∀ batch_idx b,
      (b.states.shape.length < 2 ∨ b.observations.shape.length < 2 ∨
        b.controls.shape.length < 2) →
      processBatch env batch_idx b =
        ([], Except.error (PyError.indexError
          "Dimension out of range (expected to be in range of [-1, 0], but got 1)"))) ∧
    (∀ batch_idx b,
      2 ≤ b.states.shape.length →
      2 ≤ b.observations.shape.length →
      2 ≤ b.controls.shape.length →
      (swap_batch_sequence_axes b.states).shape.length ≠ 3 →
      processBatch env batch_idx b =
        ([], Except.error (PyError.valueError "tuple unpacking of states_labels.shape"))) ∧
    (∀ batch_idx b N,
      (swap_batch_sequence_axes b.states).shape = [0, N, env.filter_model.state_dim] →
      (swap_batch_sequence_axes b.observations).shape.take 2 = [0, N] →
      (swap_batch_sequence_axes b.controls).shape.take 2 = [0, N] →
      (batch_idx = 0 → N = env.batch_size) →
      (env.measurement_init = true → env.filter_model.isVirtualSensorEKF = true) →
      processBatch env batch_idx b =
        ([], Except.error (PyError.indexError
          "index 0 is out of bounds for dimension 0 with size 0"))) ∧
    (∀ pre b post evs1 e,
      env.batches = pre ++ b :: post →
      env.datasetIsSubsequence = true →
      env.initial_covariance.shape =
        [env.filter_model.state_dim, env.filter_model.state_dim] →
      env.filter_model.training = true →
      (∀ k, ∀ hk : k < pre.length,
        ∃ evsk lk, processBatch env k (pre.get ⟨k, hk⟩) = (evsk, Except.ok lk)) →
      processBatch env pre.length b = (evs1, Except.error e) →
      ∃ evs0, train_filter env = (evs0 ++ evs1, Except.error e)) := by
  refine ⟨?_, ?_, ?_, ?_, ?_, ?_, ?_, ?_⟩
  · intro hd
    unfold train_filter
    rw [if_pos (by simp [hd])]
  · intro hd hcov
    unfold train_filter
    rw [if_neg (by simp [hd]), if_pos hcov]
  · intro hd hcov ht
    unfold train_filter
    rw [if_neg (by simp [hd]), if_neg (by simpa using hcov), if_pos (by simp [ht])]
  · exact fun batch_idx b T N d hs ho2 hc2 hT hbad =>
      processBatch_assert_violation env batch_idx b T N d hs ho2 hc2 hT hbad
  · exact fun batch_idx b h => processBatch_transpose_indexError env batch_idx b h
  · exact fun batch_idx b hs2 ho2 hc2 h3 =>
      processBatch_not3d env batch_idx b hs2 ho2 hc2 h3
  · exact fun batch_idx b N hs ho hc hb hv =>
      processBatch_emptyT env batch_idx b N hs ho hc hb hv
  · exact fun pre b post evs1 e henv hd hcov ht hpre hb =>
      train_filter_propagates env pre b post evs1 e henv hd hcov ht hpre hb

theorem C2_witness :
    envD.datasetIsSubsequence = false ∧
    train_filter envD = ([], Except.error (PyError.assertionError
      "isinstance(dataloader.dataset, torchfilter.data.SubsequenceDataset)")) :=
  ⟨rfl, (C2_error_handling envD).1 rfl⟩

/-- C4 counterexample: an input on which every shape-agreement condition
listed by the claim holds — the initial covariance is `(state_dim,
state_dim)`, the swapped states tensor ends in `state_dim`, observation
and control wrappers lead with `(T, N)`, and the forward-loop output would
be `(T-1, N, state_dim)` — yet an assertion in the loop body still fails:
the first-minibatch batch-size check (`N = 1` against `batch_size = 2`). -/
theorem C4_counterexample :
    (swap_batch_sequence_axes batchW.states).shape = [2, 1, envC4.filter_model.state_dim] ∧
    (swap_batch_sequence_axes batchW.observations).shape.take 2 = [2, 1] ∧
    (swap_batch_sequence_axes batchW.controls).shape.take 2 = [2, 1] ∧
    envC4.initial_covariance.shape =
      [envC4.filter_model.state_dim, envC4.filter_model.state_dim] ∧
    (predictionsFor envC4 batchW 1).shape = [2 - 1, 1, envC4.filter_model.state_dim] ∧
    processBatch envC4 0 batchW =
      ([], Except.error (PyError.assertionError
        "batch_idx != 0 or N == dataloader.batch_size")) :=
  ⟨rfl, rfl, rfl, rfl, rfl, rfl⟩

/-- C4 (amended): the loop body's assertions are satisfied — no
`AssertionError` is possible — when, in addition to the claim's
shape-agreement conditions (covariance `(state_dim, state_dim)`, swapped
states `(T, N, state_dim)`, observation/control leading shape `(T, N)`,
forward-loop output `(T-1, N, state_dim)`), the first minibatch's `N`
equals the dataloader's `batch_size` and, when `measurement_initialize` is
set, the model is a virtual-sensor EKF. -/
theorem C4_shape_assertions (env : Env) (batch_idx : Nat) (b : Batch) (T N : Nat)
    (hcov : env.initial_covariance.shape =
      [env.filter_model.state_dim, env.filter_model.state_dim])
    (hs : (swap_batch_sequence_axes b.states).shape = [T, N, env.filter_model.state_dim])
    (ho : (swap_batch_sequence_axes b.observations).shape.take 2 = [T, N])
    (hc : (swap_batch_sequence_axes b.controls).shape.take 2 = [T, N])
    (hb : batch_idx = 0 → N = env.batch_size)
    (hv : env.measurement_init = true → env.filter_model.isVirtualSensorEKF = true)
    (hp : (predictionsFor env b N).shape = [T - 1, N, env.filter_model.state_dim]) :
    ∀ msg, (processBatch env batch_idx b).2 ≠
      Except.error (PyError.assertionError msg) := by
  intro msg
  by_cases hT : T = 0
  · subst hT
    rw [processBatch_emptyT env batch_idx b N hs ho hc hb hv]
    simp
  · rw [processBatch_eq env batch_idx b T N hs ho hc hb hv hT hp]
    by_cases hL : env.log_interval = 0 <;> simp [hL]

theorem C4_witness :
    (envW.initial_covariance.shape =
      [envW.filter_model.state_dim, envW.filter_model.state_dim] ∧
    (swap_batch_sequence_axes batchW.states).shape = [2, 1, envW.filter_model.state_dim] ∧
    (swap_batch_sequence_axes batchW.observations).shape.take 2 = [2, 1] ∧
    (swap_batch_sequence_axes batchW.controls).shape.take 2 = [2, 1] ∧
    (0 = 0 → 1 = envW.batch_size) ∧
    (envW.measurement_init = true → envW.filter_model.isVirtualSensorEKF = true) ∧
    (predictionsFor envW batchW 1).shape = [2 - 1, 1, envW.filter_model.state_dim]) ∧
    ∀ msg, (processBatch envW 0 batchW).2 ≠
      Except.error (PyError.assertionError msg) :=
  ⟨⟨rfl, rfl, rfl, rfl, fun _ => rfl, fun hx => absurd hx (by decide), rfl⟩,
    C4_shape_assertions envW 0 batchW 2 1 rfl rfl rfl rfl (fun _ => rfl)
      (fun hx => absurd hx (by decide)) rfl⟩

/-- C9: the batch-size assertion binds only the first minibatch: for
`batch_idx ≠ 0` the loop body's behaviour is entirely independent of the
dataloader's `batch_size` (any `N` is accepted), while on the first
minibatch `N ≠ batch_size` raises the assertion (once the preceding shape
checks pass). -/
theorem C9_batch_size_first_batch_only (env : Env) :
    (∀ m batch_idx b, batch_idx ≠ 0 →
      processBatch { env with batch_size := m } batch_idx b =
        processBatch env batch_idx b) ∧
    (∀ b T N,
      (swap_batch_sequence_axes b.states).shape = [T, N, env.filter_model.state_dim] →
      (swap_batch_sequence_axes b.observations).shape.take 2 = [T, N] →
      (swap_batch_sequence_axes b.controls).shape.take 2 = [T, N] →
      N ≠ env.batch_size →
      processBatch env 0 b = ([], Except.error (PyError.assertionError
        "batch_idx != 0 or N == dataloader.batch_size"))) := by
  constructor
  · exact fun m batch_idx b hidx =>
      processBatch_batch_size_irrelevant env m batch_idx b hidx
  · intro b T N hs ho hc hN
    have hslen : b.states.shape.length = 3 := by
      have := congrArg List.length hs
      rw [swap_shape_length] at this
      simpa using this
    obtain ⟨ro, hoeq⟩ := take2_eq_cons ho
    obtain ⟨rc, hceq⟩ := take2_eq_cons hc
    have holen : 2 ≤ b.observations.shape.length := by
      rw [← swap_shape_length, hoeq]
      simp
    have hclen : 2 ≤ b.controls.shape.length := by
      rw [← swap_shape_length, hceq]
      simp
    unfold processBatch
    rw [if_neg (by omega), if_neg (by omega), if_neg (by omega)]
    dsimp only
    rw [hs]
    simp only [unpack3]
    rw [if_neg (by simp), if_neg (by simpa using ho), if_neg (by simpa using hc),
      if_pos (show True ∧ N ≠ env.batch_size from ⟨trivial, hN⟩)]

theorem C9_witness :
    ((1 : Nat) ≠ 0 ∧
      processBatch { envW with batch_size := 5 } 1 batchW = processBatch envW 1 batchW) ∧
    ((swap_batch_sequence_axes batchW.states).shape = [2, 1, envC4.filter_model.state_dim] ∧
      (1 : Nat) ≠ envC4.batch_size ∧
      processBatch envC4 0 batchW = ([], Except.error (PyError.assertionError
        "batch_idx != 0 or N == dataloader.batch_size"))) :=
  ⟨⟨by decide, (C9_batch_size_first_batch_only envW).1 5 1 batchW (by decide)⟩,
    ⟨rfl, by decide,
      (C9_batch_size_first_batch_only envC4).2 batchW 2 1 rfl rfl rfl (by decide)⟩⟩

/-- C10: the printed epoch loss is the arithmetic mean of the
per-minibatch losses — their sum divided by the number of batches — and on
an empty dataloader the final division is by zero, so the function fails
instead of printing a loss. -/
theorem C10_epoch_loss_average (env : Env) :
    (∀ evs avg, train_filter env = (evs, Except.ok avg) →
      ∃ ls, batchLosses env 0 env.batches = some ls ∧
        ls.length = env.batches.length ∧
        avg = ls.sum / (env.batches.length : ℚ) ∧
        evs.getLast? = some (Event.printEpochLoss avg)) ∧
    (env.batches = [] →
      env.datasetIsSubsequence = true →
      env.initial_covariance.shape =
        [env.filter_model.state_dim, env.filter_model.state_dim] →
      env.filter_model.training = true →
      train_filter env = ([], Except.error PyError.zeroDivisionError)) := by
  constructor
  · intro evs avg h
    obtain ⟨-, -, -, -, ls, hls, hlen, havg, evs0, s, -, -, hevs⟩ :=
      train_filter_ok_elim env evs avg h
    refine ⟨ls, hls, hlen, havg, ?_⟩
    subst hevs
    simp
  · exact fun he hd hcov ht => train_filter_empty_batches env he hd hcov ht

theorem C10_witness :
    (train_filter envW =
      (evsW ++ [Event.printEpochLoss ((lossFor envW batchW 1 + 0) / ((1 : Nat) : ℚ))],
        Except.ok ((lossFor envW batchW 1 + 0) / ((1 : Nat) : ℚ))) ∧
      ∃ ls, batchLosses envW 0 envW.batches = some ls ∧
        ls.length = envW.batches.length ∧
        ((lossFor envW batchW 1 + 0) / ((1 : Nat) : ℚ)) = ls.sum / (envW.batches.length : ℚ) ∧
        (evsW ++ [Event.printEpochLoss ((lossFor envW batchW 1 + 0) / ((1 : Nat) : ℚ))]).getLast? =
          some (Event.printEpochLoss ((lossFor envW batchW 1 + 0) / ((1 : Nat) : ℚ)))) ∧
    (envE.batches = [] ∧
      train_filter envE = ([], Except.error PyError.zeroDivisionError)) :=
  ⟨⟨rfl, (C10_epoch_loss_average envW).1
      (evsW ++ [Event.printEpochLoss ((lossFor envW batchW 1 + 0) / ((1 : Nat) : ℚ))])
      ((lossFor envW batchW 1 + 0) / ((1 : Nat) : ℚ)) rfl⟩,
    ⟨rfl, (C10_epoch_loss_average envE).2 rfl rfl rfl rfl⟩⟩

end TorchFilter
